import Mathlib

/-!
Verification of the listing, bucket, RPC and connection-multiplexer layers of
an S3-compatible object storage server.  Go functions from the repository are
shallowly embedded as executable Lean definitions; parts of the repository
that are referenced but whose source is absent (helper predicates such as
bucket-name validation, token validation, the error reducer) are modelled
from the specification and marked as such in their doc comments.
-/

namespace Minio

/-! ### API error codes (subset relevant to `ListObjects` validation) -/

/-- Error codes returned by the HTTP-layer argument validation,
mirroring the Go `APIErrorCode` constants used by `listObjectsValidateArgs`. -/
inductive APIErrorCode where
  | errNone
  | errInvalidMaxKeys
  | errNotImplemented
deriving DecidableEq, Repr

/-- Embedding of `listObjectsValidateArgs` from
`cmd/bucket-handlers-listobjects.go`: rejects a negative `maxKeys` with
`ErrInvalidMaxKeys`, a delimiter other than `""`/`"/"` with
`ErrNotImplemented`, and a non-empty marker that does not start with the
prefix with `ErrNotImplemented`; otherwise returns `ErrNone`. -/
def listObjectsValidateArgs (pre marker delimiter : String) (maxKeys : Int) : APIErrorCode :=
  if maxKeys < 0 then .errInvalidMaxKeys
  else if delimiter ≠ "" && delimiter ≠ "/" then .errNotImplemented
  else if marker ≠ "" && !(pre.isPrefixOf marker) then .errNotImplemented
  else .errNone

/-! ### Object-layer maxKeys normalization (C2) -/

/-- Listing limit used by list objects, `listObjectsLimit = 10000`. -/
def listObjectsLimit : Int := 10000

/-- Modelled from the spec: the object layer's `ListObjects` normalization of
`maxKeys` — "values < 0 or > `listObjectsLimit` (10000) clamp to the limit".
The object-layer `ListObjects` implementation is absent from the sources;
only its test (`object-api-listobjects_test.go`) and the HTTP-layer
validator are present. -/
def normalizeListObjectsMaxKeys (maxKeys : Int) : Int :=
  if maxKeys < 0 || maxKeys > listObjectsLimit then listObjectsLimit else maxKeys

/-! ### Storage-layer and object-layer errors -/

/-- Storage-layer errors, mirroring the error variables of
`cmd/storage-errors.go` (`errDiskNotFound`, `errVolumeExists`, ...) together
with `errFaultyDisk`/`errXLWriteQuorum` (referenced by the XL bucket
operations), `errInvalidToken` (RPC layer), and the Go standard-library
errors `io.ErrUnexpectedEOF` and `bytes.ErrTooLarge` used by the RPC
`ReadFile` handler. -/
inductive StorageErr where
  | diskNotFound
  | diskAccessDenied
  | faultyDisk
  | diskFull
  | volumeExists
  | volumeNotFound
  | volumeNotEmpty
  | volumeAccessDenied
  | fileNotFound
  | fileAccessDenied
  | fileNameTooLong
  | isNotRegular
  | volumeBusy
  | corruptedFormat
  | unformattedDisk
  | invalidToken
  | unexpectedEOF
  | tooLarge
  | xlWriteQuorum
deriving DecidableEq, Repr

/-- Object-layer errors surfaced by the XL bucket operations. -/
inductive ObjErr where
  | bucketNameInvalid (bucket : String)
  | bucketNotFound (bucket : String)
  | bucketExists (bucket : String)
  | insufficientWriteQuorum (bucket : String)
  | storage (e : StorageErr) (bucket : String)
deriving DecidableEq, Repr

/-- Modelled from the spec: `toObjectErr` converts a storage-layer error into
the object-layer error of the spec's taxonomy (§7: Conflict `BucketExists`
derived from `errVolumeExists`; Absence `BucketNotFound`; Consistency
`WriteQuorum`). The Go `toObjectErr` source is absent from src. -/
def toObjectErr (e : StorageErr) (bucket : String) : ObjErr :=
  match e with
  | .volumeExists => .bucketExists bucket
  | .volumeNotFound => .bucketNotFound bucket
  | .xlWriteQuorum => .insufficientWriteQuorum bucket
  | e => .storage e bucket

/-! ### Volumes, buckets and bucket-name validity -/

/-- Volume information returned by `StatVol`/`ListVols`. -/
structure VolInfo where
  name : String
  created : Nat
deriving DecidableEq, Repr

/-- Bucket information returned by the bucket operations. -/
structure BucketInfo where
  name : String
  created : Nat
deriving DecidableEq, Repr

/-- Lower-case letters and digits, the characters allowed at the ends of a
bucket name. -/
def isLowerAlnum (c : Char) : Bool :=
  ('a' ≤ c && c ≤ 'z') || ('0' ≤ c && c ≤ '9')

/-- Characters allowed in the middle of a bucket name. -/
def isBucketNameChar (c : Char) : Bool :=
  isLowerAlnum c || c == '.' || c == '-'

/-- Whether a character list contains two consecutive dots. -/
def hasConsecutiveDots : List Char → Bool
  | c1 :: c2 :: rest => (c1 == '.' && c2 == '.') || hasConsecutiveDots (c2 :: rest)
  | _ => false

/-- Modelled from the spec: bucket names match
`[a-z0-9][a-z0-9.-]{1,61}[a-z0-9]` with no consecutive dots (§3 Invariants).
The Go `IsValidBucketName` source is absent from src (only callers are
present). -/
def IsValidBucketName (bucket : String) : Bool :=
  let cs := bucket.toList
  decide (3 ≤ cs.length) && decide (cs.length ≤ 63) &&
  (match cs.head? with | some c => isLowerAlnum c | none => false) &&
  (match cs.getLast? with | some c => isLowerAlnum c | none => false) &&
  ((cs.drop 1).dropLast.all isBucketNameChar) &&
  !hasConsecutiveDots cs

/-- Modelled from the spec: the name of the reserved meta volume (`<meta>`)
holding multipart state and internal bookkeeping; the Go constant
`minioMetaBucket` is absent from src. -/
def minioMetaBucket : String := ".minio"

/-! ### Per-disk outcomes and the XL object layer state -/

/-- Per-disk responses for the storage operations exercised by the bucket
operations under verification, for the bucket under consideration
(`none` / `Except.ok` = success).  Quantifying over `DiskSpec` quantifies
over "every pattern of per-disk outcomes". -/
structure DiskSpec where
  makeVolErr : Option StorageErr
  deleteVolErr : Option StorageErr
  statVolRes : Except StorageErr VolInfo
  listVolsRes : Except StorageErr (List VolInfo)
  cleanupMultipartErr : Option StorageErr
deriving Repr

/-- State of the XL object layer: the fixed disk sequence (absent disks are
`none`), the write quorum, and the rotation applied by the load balancer. -/
structure xlObjects where
  storageDisks : List (Option DiskSpec)
  writeQuorum : Nat
  lbRotation : Nat
deriving Repr

/-- Modelled from the spec: `getLoadBalancedDisks` returns "a randomly
rotated view of the disk sequence" (Glossary); the rotation amount is part of
the model state since the Go source is absent from src. -/
def xlObjects.getLoadBalancedDisks (xl : xlObjects) : List (Option DiskSpec) :=
  let n := xl.lbRotation % (max xl.storageDisks.length 1)
  xl.storageDisks.drop n ++ xl.storageDisks.take n

/-- Modelled from the spec: `isErrIgnored err ignoredErrs` tests membership
of the error in the ignored-error list; the Go source is absent from src. -/
def isErrIgnored (err : StorageErr) (ignoredErrs : List StorageErr) : Bool :=
  ignoredErrs.contains err

/-- Errors ignored in a bucket metadata operation,
`bucketMetadataOpIgnoredErrs` from `cmd/storage-errors.go`. -/
def bucketMetadataOpIgnoredErrs : List StorageErr :=
  [.diskNotFound, .diskAccessDenied, .faultyDisk, .volumeNotFound]

/-- Modelled from the spec: `isDiskQuorum dErrs quorum` holds when the number
of per-disk successes (nil errors) reaches the quorum count ("If successes <
writeQuorum, ... fail with WriteQuorum"); the Go source is absent from
src. -/
def isDiskQuorum (dErrs : List (Option StorageErr)) (quorum : Nat) : Bool :=
  quorum ≤ dErrs.countP (fun e => e.isNone)

/-- Modelled from the spec (§7): `reduceErrs errs ignoredErrs` "returns the
modal error among non-ignored entries" — the most frequent error among the
entries that are neither nil nor ignored, ties broken towards the earlier
entry, and `none` when every entry is nil or ignored.  The Go source is
absent from src. -/
def reduceErrs (errs : List (Option StorageErr)) (ignoredErrs : List StorageErr) :
    Option StorageErr :=
  let candidates := (errs.filterMap id).filter (fun e => !(ignoredErrs.contains e))
  match candidates with
  | [] => none
  | x :: xs =>
    some ((x :: xs).foldl
      (fun best e => if candidates.count best < candidates.count e then e else best) x)

/-! ### The XL bucket operations (`cmd/storage-errors.go`, appended part) -/

/-- Trace of the observable side effects of a bucket operation: exclusive
namespace-lock acquisitions and the indices of the disks on which `MakeVol`
resp. `DeleteVol` were invoked. -/
structure BucketOpTrace where
  exclusiveLockCalls : List (String × String)
  makeVolCalls : List Nat
  deleteVolCalls : List Nat
deriving DecidableEq, Repr

/-- Indices of the present (non-nil) disks — the disks on which the fan-out
loops and the undo loops of `MakeBucket`/`DeleteBucket` invoke the storage
operation. -/
def presentDiskIndices (disks : List (Option DiskSpec)) : List Nat :=
  disks.enum.filterMap (fun p => match p.2 with | some _ => some p.1 | none => none)

/-- Indices of the disks whose `MakeVol` succeeded. -/
def makeVolSucceededIndices (disks : List (Option DiskSpec)) : List Nat :=
  disks.enum.filterMap (fun p =>
    match p.2 with
    | some d => if d.makeVolErr.isNone then some p.1 else none
    | none => none)

/-- Indices of the disks whose `DeleteVol` succeeded. -/
def deleteVolSucceededIndices (disks : List (Option DiskSpec)) : List Nat :=
  disks.enum.filterMap (fun p =>
    match p.2 with
    | some d => if d.deleteVolErr.isNone then some p.1 else none
    | none => none)

/-- Per-disk error slots collected by the `MakeVol` fan-out of `MakeBucket`:
an absent disk contributes `errDiskNotFound`, a present disk its `MakeVol`
error. -/
def makeVolErrs (disks : List (Option DiskSpec)) : List (Option StorageErr) :=
  disks.map (fun d =>
    match d with
    | none => some .diskNotFound
    | some d => d.makeVolErr)

/-- Per-disk error slots collected by the `DeleteVol` fan-out of
`DeleteBucket`: an absent disk contributes `errDiskNotFound`; a present disk
contributes its `DeleteVol` error, or else the error of the multipart-meta
cleanup that follows a successful `DeleteVol` (ignoring
`errVolumeNotFound`). -/
def deleteVolCombinedErrs (disks : List (Option DiskSpec)) : List (Option StorageErr) :=
  disks.map (fun d =>
    match d with
    | none => some .diskNotFound
    | some d =>
      match d.deleteVolErr with
      | some e => some e
      | none =>
        match d.cleanupMultipartErr with
        | some e => if e == .volumeNotFound then none else some e
        | none => none)

/-- Embedding of `getBucketInfo`: walk the load-balanced disks, returning the
first `StatVol` success, skipping disks whose error is ignorable for bucket
metadata operations, stopping at the first other error.  Returns the pair of
the Go named return values `(bucketInfo, err)`. -/
def getBucketInfoAux :
    List (Option DiskSpec) → Option StorageErr → (Option BucketInfo × Option StorageErr)
  | [], err => (none, err)
  | none :: rest, err => getBucketInfoAux rest err
  | some d :: rest, _ =>
    match d.statVolRes with
    | .ok volInfo => (some ⟨volInfo.name, volInfo.created⟩, none)
    | .error e =>
      if isErrIgnored e bucketMetadataOpIgnoredErrs then getBucketInfoAux rest (some e)
      else (none, some e)

/-- Embedding of `xlObjects.isBucketExist`: `getBucketInfo` under a shared
lock; any error (including `errVolumeNotFound`) yields `false`. -/
def xlObjects.isBucketExist (xl : xlObjects) (bucket : String) : Bool :=
  match getBucketInfoAux xl.getLoadBalancedDisks none with
  | (_, none) => true
  | (_, some _) => false

/-- Embedding of `xlObjects.MakeBucket`: validate the name, reject an
existing bucket, take the exclusive lock, fan out `MakeVol`, undo with
`DeleteVol` on quorum failure, otherwise reduce the remaining errors. -/
def xlObjects.MakeBucket (xl : xlObjects) (bucket : String) :
    Except ObjErr Unit × BucketOpTrace :=
  if !IsValidBucketName bucket then
    (.error (.bucketNameInvalid bucket), ⟨[], [], []⟩)
  else if xl.isBucketExist bucket then
    (.error (toObjectErr .volumeExists bucket), ⟨[], [], []⟩)
  else
    let dErrs := makeVolErrs xl.storageDisks
    let mkCalls := presentDiskIndices xl.storageDisks
    if !isDiskQuorum dErrs xl.writeQuorum then
      (.error (toObjectErr .xlWriteQuorum bucket),
        ⟨[(bucket, "")], mkCalls, presentDiskIndices xl.storageDisks⟩)
    else
      match reduceErrs dErrs [.diskNotFound, .faultyDisk, .diskAccessDenied] with
      | some reducedErr =>
        (.error (toObjectErr reducedErr bucket), ⟨[(bucket, "")], mkCalls, []⟩)
      | none => (.ok (), ⟨[(bucket, "")], mkCalls, []⟩)

/-- Embedding of `xlObjects.DeleteBucket`: validate the name, require the
bucket to exist, take the exclusive lock, fan out `DeleteVol` plus the
multipart-meta cleanup, undo with `MakeVol` (on every present disk) on quorum
failure, otherwise reduce the remaining errors. -/
def xlObjects.DeleteBucket (xl : xlObjects) (bucket : String) :
    Except ObjErr Unit × BucketOpTrace :=
  if !IsValidBucketName bucket then
    (.error (.bucketNameInvalid bucket), ⟨[], [], []⟩)
  else if !(xl.isBucketExist bucket) then
    (.error (.bucketNotFound bucket), ⟨[], [], []⟩)
  else
    let dErrs := deleteVolCombinedErrs xl.storageDisks
    let delCalls := presentDiskIndices xl.storageDisks
    if !isDiskQuorum dErrs xl.writeQuorum then
      (.error (toObjectErr .xlWriteQuorum bucket),
        ⟨[(bucket, "")], presentDiskIndices xl.storageDisks, delCalls⟩)
    else
      match reduceErrs dErrs [.faultyDisk, .diskNotFound, .diskAccessDenied] with
      | some reducedErr =>
        (.error (toObjectErr reducedErr bucket), ⟨[(bucket, "")], [], delCalls⟩)
      | none => (.ok (), ⟨[(bucket, "")], [], delCalls⟩)

/-! ### Listing buckets -/

/-- The filter applied by `listBuckets` to one disk's `ListVols` reply: keep
volumes with valid bucket names and drop the reserved meta volume. -/
def filterBucketVols (volsInfo : List VolInfo) : List BucketInfo :=
  volsInfo.filterMap (fun volInfo =>
    if !IsValidBucketName volInfo.name then none
    else if volInfo.name == minioMetaBucket then none
    else some ⟨volInfo.name, volInfo.created⟩)

/-- Embedding of the loop of `xlObjects.listBuckets`: walk the load-balanced
disks; on a successful `ListVols` whose filtered list is non-empty return it,
on an empty filtered list continue with the next disk (the Go `err` named
return having been reset to nil), skip ignorable errors, and stop at the
first other error. -/
def listBucketsAux :
    List (Option DiskSpec) → Option StorageErr → (List BucketInfo × Option StorageErr)
  | [], err => ([], err)
  | none :: rest, err => listBucketsAux rest err
  | some d :: rest, _ =>
    match d.listVolsRes with
    | .ok volsInfo =>
      let bucketsInfo := filterBucketVols volsInfo
      if bucketsInfo.isEmpty then listBucketsAux rest none
      else (bucketsInfo, none)
    | .error e =>
      if isErrIgnored e bucketMetadataOpIgnoredErrs then listBucketsAux rest (some e)
      else ([], some e)

/-- Embedding of `xlObjects.listBuckets`. -/
def xlObjects.listBuckets (xl : xlObjects) : List BucketInfo × Option StorageErr :=
  listBucketsAux xl.getLoadBalancedDisks none

/-- Ordering on bucket info used by `sort.Sort(byBucketName)`: compare the
bucket names lexicographically. -/
def byBucketNameLe (a b : BucketInfo) : Prop := a.name ≤ b.name

instance : DecidableRel byBucketNameLe := fun a b => inferInstanceAs (Decidable (a.name ≤ b.name))

instance : IsTotal BucketInfo byBucketNameLe := ⟨fun a b => le_total a.name b.name⟩

instance : IsTrans BucketInfo byBucketNameLe := ⟨fun _ _ _ h1 h2 => le_trans h1 h2⟩

/-- Lexicographic sort by bucket name, embedding `sort.Sort(byBucketName)`. -/
def sortByBucketName (l : List BucketInfo) : List BucketInfo :=
  l.insertionSort byBucketNameLe

/-- Embedding of `xlObjects.ListBuckets`: `listBuckets`, then sort by bucket
name. -/
def xlObjects.ListBuckets (xl : xlObjects) : Except ObjErr (List BucketInfo) :=
  match xl.listBuckets with
  | (_, some err) => .error (toObjectErr err "")
  | (bucketInfos, none) => .ok (sortByBucketName bucketInfos)

/-- Whether `listBuckets` skips this disk and moves on to the next one: the
disk is absent, or its `ListVols` reply filters to an empty bucket list, or
it fails with an error that is ignorable for bucket metadata operations. -/
def listBucketsSkippedDisk (d : Option DiskSpec) : Bool :=
  match d with
  | none => true
  | some d =>
    match d.listVolsRes with
    | .ok vols => (filterBucketVols vols).isEmpty
    | .error e => isErrIgnored e bucketMetadataOpIgnoredErrs

/-! ### Concrete fixtures used by counterexamples and witnesses -/

/-- Disk on which the bucket does not yet exist and every operation
succeeds. -/
def diskOkNoBucket : DiskSpec :=
  { makeVolErr := none, deleteVolErr := none, statVolRes := .error .volumeNotFound,
    listVolsRes := .ok [], cleanupMultipartErr := none }

/-- Disk whose `MakeVol` fails with `errDiskFull`. -/
def diskMakeVolDiskFull : DiskSpec :=
  { diskOkNoBucket with makeVolErr := some .diskFull }

/-- Four-disk XL fixture with write quorum 3 in which only disk 0 succeeds in
`MakeVol`. -/
def xlC3fix : xlObjects :=
  { storageDisks := [some diskOkNoBucket, some diskMakeVolDiskFull,
      some diskMakeVolDiskFull, some diskMakeVolDiskFull],
    writeQuorum := 3, lbRotation := 0 }

/-- Disk on which the bucket exists and `DeleteVol` plus the multipart
cleanup succeed. -/
def diskDelOk : DiskSpec :=
  { makeVolErr := none, deleteVolErr := none, statVolRes := .ok ⟨"bucket1", 0⟩,
    listVolsRes := .ok [], cleanupMultipartErr := none }

/-- Disk whose `DeleteVol` succeeds but whose multipart-meta cleanup fails
with `errDiskFull`. -/
def diskDelOkCleanupFail : DiskSpec :=
  { diskDelOk with cleanupMultipartErr := some .diskFull }

/-- Disk whose `DeleteVol` fails with `errVolumeNotEmpty`. -/
def diskDelFail : DiskSpec :=
  { diskDelOk with deleteVolErr := some .volumeNotEmpty }

/-- Four-disk XL fixture with write quorum 3 in which disks 0–2 succeed in
`DeleteVol` but disk 2's cleanup fails. -/
def xlC4fix : xlObjects :=
  { storageDisks := [some diskDelOk, some diskDelOk, some diskDelOkCleanupFail,
      some diskDelFail],
    writeQuorum := 3, lbRotation := 0 }

/-- Disk whose `ListVols` reply names only the reserved meta volume. -/
def diskMetaOnly : DiskSpec :=
  { makeVolErr := none, deleteVolErr := none, statVolRes := .error .volumeNotFound,
    listVolsRes := .ok [⟨".minio", 1⟩], cleanupMultipartErr := none }

/-- Disk whose `ListVols` reply names one regular bucket. -/
def diskOneBucket : DiskSpec :=
  { diskMetaOnly with listVolsRes := .ok [⟨"bucket1", 5⟩] }

/-- Two-disk XL fixture: the first responsive disk has only the meta volume,
the second has a regular bucket. -/
def xlC5fix : xlObjects :=
  { storageDisks := [some diskMetaOnly, some diskOneBucket],
    writeQuorum := 2, lbRotation := 0 }

/-- One-disk XL fixture on which the bucket `bucket1` already exists. -/
def xlC10fix : xlObjects :=
  { storageDisks := [some diskDelOk], writeQuorum := 1, lbRotation := 0 }

/-! ### Storage RPC server (`cmd/storage-rpc-server.go`) -/

/-- Disk information returned by `DiskInfo`. -/
structure DiskInfoT where
  total : Nat
  free : Nat
deriving DecidableEq, Repr

/-- File information returned by `StatFile`. -/
structure FileInfo where
  volume : String
  name : String
  size : Nat
  modTime : Nat
deriving DecidableEq, Repr

/-- RPC argument record carrying only the token (`GenericArgs`). -/
structure GenericArgs where
  token : String
deriving DecidableEq, Repr

/-- RPC argument record for volume operations (`GenericVolArgs`). -/
structure GenericVolArgs where
  token : String
  vol : String
deriving DecidableEq, Repr

/-- RPC argument record for `StatFile` (`StatFileArgs`). -/
structure StatFileArgs where
  token : String
  vol : String
  path : String
deriving DecidableEq, Repr

/-- RPC argument record for `ListDir` (`ListDirArgs`). -/
structure ListDirArgs where
  token : String
  vol : String
  path : String
deriving DecidableEq, Repr

/-- RPC argument record for `ReadAll`/`ReadFile` (`ReadFileArgs`). -/
structure ReadFileArgs where
  token : String
  vol : String
  path : String
  offset : Int
  size : Int
deriving DecidableEq, Repr

/-- RPC argument record for `AppendFile` (`AppendFileArgs`). -/
structure AppendFileArgs where
  token : String
  vol : String
  path : String
  buffer : List UInt8
deriving DecidableEq, Repr

/-- RPC argument record for `DeleteFile` (`DeleteFileArgs`). -/
structure DeleteFileArgs where
  token : String
  vol : String
  path : String
deriving DecidableEq, Repr

/-- RPC argument record for `RenameFile` (`RenameFileArgs`). -/
structure RenameFileArgs where
  token : String
  srcVol : String
  srcPath : String
  dstVol : String
  dstPath : String
deriving DecidableEq, Repr

/-- Outcome of the backing storage's `ReadFile` into a buffer of a given
length: either the bytes written into the buffer prefix together with the
returned error, or a panic of the underlying call. -/
inductive ReadFileOutcome where
  | res (data : List UInt8) (err : Option StorageErr)
  | panics
deriving DecidableEq, Repr

/-- Behaviour of the backing `StorageAPI` (the posix layer, whose source is
absent from src): one response per operation and argument tuple.  The
handlers under verification are parametric in this behaviour. -/
structure StorageAPIModel where
  diskInfoRes : Except StorageErr DiskInfoT
  makeVolRes : String → Option StorageErr
  listVolsRes : Except StorageErr (List VolInfo)
  statVolRes : String → Except StorageErr VolInfo
  deleteVolRes : String → Option StorageErr
  statFileRes : String → String → Except StorageErr FileInfo
  listDirRes : String → String → Except StorageErr (List String)
  readAllRes : String → String → Except StorageErr (List UInt8)
  readFileRes : String → String → Int → Nat → ReadFileOutcome
  appendFileRes : String → String → List UInt8 → Option StorageErr
  deleteFileRes : String → String → Option StorageErr
  renameFileRes : String → String → String → String → Option StorageErr

/-- Record of one invocation of the underlying storage API, used to observe
whether (and with which arguments) a handler touched the storage. -/
inductive StorageCall where
  | diskInfo
  | makeVol (vol : String)
  | listVols
  | statVol (vol : String)
  | deleteVol (vol : String)
  | statFile (vol path : String)
  | listDir (vol path : String)
  | readAll (vol path : String)
  | readFile (vol path : String) (offset : Int) (bufLen : Nat)
  | appendFile (vol path : String) (buffer : List UInt8)
  | deleteFile (vol path : String)
  | renameFile (srcVol srcPath dstVol dstPath : String)
deriving DecidableEq, Repr

/-- Helper turning an optional storage error into the handler result. -/
def errToReply (e : Option StorageErr) : Except StorageErr Unit :=
  match e with
  | some e => .error e
  | none => .ok ()

/-- Embedding of `DiskInfoHandler`.  The handlers are parameterized by the
token-validation predicate: `isRPCTokenValid` is modelled from the spec (JWT
tokens minted by `LoginHandler`; its source is absent from src). -/
def DiskInfoHandler (tokValid : String → Bool) (s : StorageAPIModel)
    (args : GenericArgs) : Except StorageErr DiskInfoT × List StorageCall :=
  if !(tokValid args.token) then (.error .invalidToken, [])
  else (s.diskInfoRes, [.diskInfo])

/-- Embedding of `MakeVolHandler`. -/
def MakeVolHandler (tokValid : String → Bool) (s : StorageAPIModel)
    (args : GenericVolArgs) : Except StorageErr Unit × List StorageCall :=
  if !(tokValid args.token) then (.error .invalidToken, [])
  else (errToReply (s.makeVolRes args.vol), [.makeVol args.vol])

/-- Embedding of `ListVolsHandler`. -/
def ListVolsHandler (tokValid : String → Bool) (s : StorageAPIModel)
    (args : GenericArgs) : Except StorageErr (List VolInfo) × List StorageCall :=
  if !(tokValid args.token) then (.error .invalidToken, [])
  else (s.listVolsRes, [.listVols])

/-- Embedding of `StatVolHandler`. -/
def StatVolHandler (tokValid : String → Bool) (s : StorageAPIModel)
    (args : GenericVolArgs) : Except StorageErr VolInfo × List StorageCall :=
  if !(tokValid args.token) then (.error .invalidToken, [])
  else (s.statVolRes args.vol, [.statVol args.vol])

/-- Embedding of `DeleteVolHandler`. -/
def DeleteVolHandler (tokValid : String → Bool) (s : StorageAPIModel)
    (args : GenericVolArgs) : Except StorageErr Unit × List StorageCall :=
  if !(tokValid args.token) then (.error .invalidToken, [])
  else (errToReply (s.deleteVolRes args.vol), [.deleteVol args.vol])

/-- Embedding of `StatFileHandler`. -/
def StatFileHandler (tokValid : String → Bool) (s : StorageAPIModel)
    (args : StatFileArgs) : Except StorageErr FileInfo × List StorageCall :=
  if !(tokValid args.token) then (.error .invalidToken, [])
  else (s.statFileRes args.vol args.path, [.statFile args.vol args.path])

/-- Embedding of `ListDirHandler`. -/
def ListDirHandler (tokValid : String → Bool) (s : StorageAPIModel)
    (args : ListDirArgs) : Except StorageErr (List String) × List StorageCall :=
  if !(tokValid args.token) then (.error .invalidToken, [])
  else (s.listDirRes args.vol args.path, [.listDir args.vol args.path])

/-- Embedding of `ReadAllHandler`. -/
def ReadAllHandler (tokValid : String → Bool) (s : StorageAPIModel)
    (args : ReadFileArgs) : Except StorageErr (List UInt8) × List StorageCall :=
  if !(tokValid args.token) then (.error .invalidToken, [])
  else (s.readAllRes args.vol args.path, [.readAll args.vol args.path])

/-- Embedding of `AppendFileHandler`. -/
def AppendFileHandler (tokValid : String → Bool) (s : StorageAPIModel)
    (args : AppendFileArgs) : Except StorageErr Unit × List StorageCall :=
  if !(tokValid args.token) then (.error .invalidToken, [])
  else (errToReply (s.appendFileRes args.vol args.path args.buffer),
    [.appendFile args.vol args.path args.buffer])

/-- Embedding of `DeleteFileHandler`. -/
def DeleteFileHandler (tokValid : String → Bool) (s : StorageAPIModel)
    (args : DeleteFileArgs) : Except StorageErr Unit × List StorageCall :=
  if !(tokValid args.token) then (.error .invalidToken, [])
  else (errToReply (s.deleteFileRes args.vol args.path),
    [.deleteFile args.vol args.path])

/-- Embedding of `RenameFileHandler`. -/
def RenameFileHandler (tokValid : String → Bool) (s : StorageAPIModel)
    (args : RenameFileArgs) : Except StorageErr Unit × List StorageCall :=
  if !(tokValid args.token) then (.error .invalidToken, [])
  else (errToReply (s.renameFileRes args.srcVol args.srcPath args.dstVol args.dstPath),
    [.renameFile args.srcVol args.srcPath args.dstVol args.dstPath])

/-- Result of the `ReadFileHandler` body before the deferred panic recovery
is applied: a normal return carrying the reply buffer and the error, or a
panic propagating out of the body. -/
inductive RPCBodyRes where
  | ret (reply : List UInt8) (err : Option StorageErr)
  | panic
deriving DecidableEq, Repr

/-- Embedding of the body of `ReadFileHandler`: validate the token, allocate
the reply buffer of the client-supplied size (a negative size makes the Go
`make` panic), call the storage's `ReadFile` on that buffer, convert the
short-read error `io.ErrUnexpectedEOF` to nil, and truncate the reply to the
bytes actually read. -/
def readFileHandlerBody (tokValid : String → Bool) (s : StorageAPIModel)
    (args : ReadFileArgs) : RPCBodyRes × List StorageCall :=
  if !(tokValid args.token) then (.ret [] (some .invalidToken), [])
  else if args.size < 0 then (.panic, [])
  else
    let bufLen := args.size.toNat
    let buffer := List.replicate bufLen (0 : UInt8)
    match s.readFileRes args.vol args.path args.offset bufLen with
    | .panics => (.panic, [.readFile args.vol args.path args.offset bufLen])
    | .res data err =>
      let written := data.take bufLen
      let bufferAfter := written ++ buffer.drop written.length
      let err2 := if err == some .unexpectedEOF then none else err
      (.ret (bufferAfter.take written.length) err2,
        [.readFile args.vol args.path args.offset bufLen])

/-- Embedding of `ReadFileHandler` with its deferred recovery: a panic
anywhere in the body is recovered and turned into `bytes.ErrTooLarge`. -/
def ReadFileHandler (tokValid : String → Bool) (s : StorageAPIModel)
    (args : ReadFileArgs) : Except StorageErr (List UInt8) × List StorageCall :=
  match readFileHandlerBody tokValid s args with
  | (.panic, calls) => (.error .tooLarge, calls)
  | (.ret reply none, calls) => (.ok reply, calls)
  | (.ret _ (some e), calls) => (.error e, calls)

/-- Fixture storage behaviour used by the RPC witnesses: every operation
succeeds, and `ReadFile` performs a short read of two bytes. -/
def storageFix : StorageAPIModel :=
  { diskInfoRes := .ok ⟨100, 50⟩,
    makeVolRes := fun _ => none,
    listVolsRes := .ok [],
    statVolRes := fun v => .ok ⟨v, 0⟩,
    deleteVolRes := fun _ => none,
    statFileRes := fun v p => .ok ⟨v, p, 0, 0⟩,
    listDirRes := fun _ _ => .ok [],
    readAllRes := fun _ _ => .ok [],
    readFileRes := fun _ _ _ _ => .res [7, 8] (some .unexpectedEOF),
    appendFileRes := fun _ _ _ => none,
    deleteFileRes := fun _ _ => none,
    renameFileRes := fun _ _ _ _ => none }

/-! ### Connection multiplexer (`cmd/server-mux.go`) -/

/-- HTTP/2 method tokens, `defaultHTTP2Methods`. -/
def defaultHTTP2Methods : List String := ["PRI"]

/-- HTTP/1 method tokens, `defaultHTTP1Methods`. -/
def defaultHTTP1Methods : List String :=
  ["OPTIONS", "GET", "HEAD", "POST", "PUT", "DELETE", "TRACE", "CONNECT"]

/-- Embedding of `longestWord`: the parameter is ignored and the maximum is
taken over both default method lists (an oddity noted in the spec's design
notes). -/
def longestWord (strs : List String) : Nat :=
  let m1 := defaultHTTP1Methods.foldl
    (fun maxLen m => if maxLen < m.length then m.length else maxLen) 0
  defaultHTTP2Methods.foldl
    (fun maxLen m => if maxLen < m.length then m.length else maxLen) m1

/-- Bytes of an ASCII string literal. -/
def strBytes (s : String) : List UInt8 :=
  s.toList.map (fun c => UInt8.ofNat c.toNat)

/-- Error outcome of a network read: end of stream or some other error. -/
inductive ReadErr where
  | eof
  | other
deriving DecidableEq, Repr

/-- Model of the underlying network connection: the remaining byte stream,
a schedule of how many bytes each successive `Read` delivers (an exhausted
schedule delivers everything available), and a schedule of the error value
each successive `Read` returns alongside its bytes (exhausted: nil, or EOF
once the stream is empty). -/
structure NetConn where
  data : List UInt8
  sched : List Nat
  errSched : List (Option ReadErr)
deriving DecidableEq, Repr

/-- One `Read` on the underlying connection with a buffer of length
`bufLen`: delivers at most `bufLen` bytes according to the schedule. -/
def NetConn.read (c : NetConn) (bufLen : Nat) : (List UInt8 × Option ReadErr) × NetConn :=
  let e := c.errSched.headD none
  if c.data.isEmpty then
    (([], match e with | some er => some er | none => some .eof),
      { c with sched := c.sched.tail, errSched := c.errSched.tail })
  else
    let offered := c.sched.headD c.data.length
    let n := min bufLen (min offered c.data.length)
    ((c.data.take n, e),
      { data := c.data.drop n, sched := c.sched.tail, errSched := c.errSched.tail })

/-- Network buffer recording the peeked data (`ConnBuf`). -/
structure ConnBuf where
  buffer : List UInt8
  unRead : Bool
  offset : Nat
deriving DecidableEq, Repr

/-- Connection wrapper that replays the peeked bytes (`MuxConn`). -/
structure MuxConn where
  conn : NetConn
  lastError : Option ReadErr
  dataBuf : ConnBuf
deriving DecidableEq, Repr

/-- Embedding of `NewMuxConn`: allocate the peek buffer of length one more
than the longest known method token. -/
def NewMuxConn (c : NetConn) : MuxConn :=
  let h1 := longestWord defaultHTTP1Methods
  let h2 := longestWord defaultHTTP2Methods
  let mx := if h2 > h1 then h2 else h1
  { conn := c, lastError := none,
    dataBuf := { buffer := List.replicate (mx + 1) 0, unRead := false, offset := 0 } }

/-- Result of a Go `Read` into a fixed buffer: the delivered bytes overwrite
the buffer's prefix, the rest of the buffer keeps its previous content. -/
def writeInto (buffer bytes : List UInt8) : List UInt8 :=
  let w := bytes.take buffer.length
  w ++ buffer.drop w.length

/-- Classification performed by `PeekProtocol` on the contents of the peek
buffer: an HTTP/1 method prefix gives "http", the HTTP/2 preface prefix
gives "http2", anything else "tls". -/
def peekClassify (buffer : List UInt8) : String :=
  if defaultHTTP1Methods.any (fun m => (strBytes m).isPrefixOf buffer) then "http"
  else if defaultHTTP2Methods.any (fun m => (strBytes m).isPrefixOf buffer) then "http2"
  else "tls"

/-- Embedding of `MuxConn.PeekProtocol`: read the first bytes into the peek
buffer, remember the read error, and classify; on a zero-byte read or a
non-EOF error return the empty protocol string without marking the buffer
unread. -/
def MuxConn.PeekProtocol (c : MuxConn) : String × MuxConn :=
  match c.conn.read c.dataBuf.buffer.length with
  | ((bytes, err), conn2) =>
    let n := bytes.length
    let buffer2 := writeInto c.dataBuf.buffer bytes
    let buf2 : ConnBuf :=
      { buffer := buffer2, unRead := c.dataBuf.unRead, offset := c.dataBuf.offset }
    let c2 : MuxConn :=
      { conn := conn2, lastError := err, dataBuf := buf2 }
    if n == 0 || (!(err == none) && !(err == some .eof)) then ("", c2)
    else
      (peekClassify buffer2,
        { c2 with dataBuf := { c2.dataBuf with unRead := true } })

/-- Embedding of `MuxConn.Read` with a caller buffer of length `bufLen`:
replay the peek buffer from the current offset while `unRead` is set; once
the buffer is exhausted reset it and, if the caller buffer still has room,
continue with a read from the socket into a temporary buffer of length
`bufLen - n - 1`; otherwise read from the socket directly. -/
def MuxConn.Read (c : MuxConn) (bufLen : Nat) :
    (List UInt8 × Option ReadErr) × MuxConn :=
  if c.dataBuf.unRead then
    let avail := c.dataBuf.buffer.drop c.dataBuf.offset
    let n := min bufLen avail.length
    let out := avail.take n
    let offset2 := c.dataBuf.offset + n
    if offset2 == c.dataBuf.buffer.length then
      let cReset : MuxConn := { c with
        dataBuf := { buffer := c.dataBuf.buffer, unRead := false, offset := 0 } }
      if n < bufLen then
        let tmpLen := bufLen - n - 1
        match c.conn.read tmpLen with
        | ((bytes2, err2), conn2) =>
          ((out ++ bytes2, err2), { cReset with conn := conn2 })
      else ((out, c.lastError), cReset)
    else
      ((out, c.lastError),
        { c with dataBuf := { c.dataBuf with offset := offset2 } })
  else
    match c.conn.read bufLen with
    | ((bytes, err), conn2) => ((bytes, err), { c with conn := conn2 })

/-- Concatenation of the byte sequences produced by successive `MuxConn.Read`
calls with the given caller buffer sizes. -/
def muxReads : MuxConn → List Nat → List UInt8
  | _, [] => []
  | c, k :: ks =>
    match c.Read k with
    | ((bs, _), c2) => bs ++ muxReads c2 ks

/-- Connection fixture for C8: the stream is `"GET /index"` but the first
read delivers only the three bytes `"GET"`. -/
def connShortPeek : NetConn :=
  { data := strBytes "GET /index", sched := [3], errSched := [] }

/-- Connection fixture for C9's witness: the stream `"GET /index"` delivered
without artificial chunking. -/
def connFullPeek : NetConn :=
  { data := strBytes "GET /index", sched := [], errSched := [] }

end Minio

namespace Minio

/-- C1: for non-negative `maxKeys`, `listObjectsValidateArgs` returns
`ErrNotImplemented` iff the delimiter is neither `""` nor `"/"`, or the
marker is non-empty and does not have the prefix as a string prefix; in all
other cases it returns `ErrNone`. -/
theorem C1_listObjectsValidateArgs_notImplemented_iff
    (pre marker delimiter : String) (maxKeys : Int) (hk : 0 ≤ maxKeys) :
    (listObjectsValidateArgs pre marker delimiter maxKeys = .errNotImplemented ↔
      ((delimiter ≠ "" ∧ delimiter ≠ "/") ∨
        (marker ≠ "" ∧ pre.isPrefixOf marker = false))) ∧
    (¬ ((delimiter ≠ "" ∧ delimiter ≠ "/") ∨
        (marker ≠ "" ∧ pre.isPrefixOf marker = false)) →
      listObjectsValidateArgs pre marker delimiter maxKeys = .errNone) := by
  have hneg : ¬ maxKeys < 0 := by omega
  unfold listObjectsValidateArgs
  rw [if_neg hneg]
  by_cases hd : delimiter ≠ "" ∧ delimiter ≠ "/"
  · constructor
    · simp [hd.1, hd.2]
    · intro h
      exact absurd (Or.inl hd) h
  · have hd' : ¬ (delimiter ≠ "" && delimiter ≠ "/") = true := by
      simp only [Bool.and_eq_true, decide_eq_true_eq, ne_eq, Decidable.not_not] at *
      tauto
    rw [if_neg hd']
    by_cases hm : marker ≠ "" ∧ pre.isPrefixOf marker = false
    · have hm' : (marker ≠ "" && !(pre.isPrefixOf marker)) = true := by
        simp only [Bool.and_eq_true, decide_eq_true_eq, Bool.not_eq_true']
        exact ⟨hm.1, hm.2⟩
      rw [if_pos hm']
      constructor
      · simp [hm]
      · intro h
        exact absurd (Or.inr hm) h
    · have hm' : ¬ (marker ≠ "" && !(pre.isPrefixOf marker)) = true := by
        simp only [Bool.and_eq_true, decide_eq_true_eq, Bool.not_eq_true']
        tauto
      rw [if_neg hm']
      constructor
      · constructor
        · intro h
          exact absurd h (by decide)
        · intro h
          exact absurd h (by tauto)
      · intro _
        rfl

/-- Witness for C1 at a concrete input: prefix `"a"`, marker `"ab"`,
delimiter `"/"`, `maxKeys = 0` — validation returns `ErrNone`. -/
theorem C1_witness :
    (0 : Int) ≤ 0 ∧
    ((listObjectsValidateArgs "a" "ab" "/" 0 = .errNotImplemented ↔
      ((("/" : String) ≠ "" ∧ ("/" : String) ≠ "/") ∨
        (("ab" : String) ≠ "" ∧ ("a" : String).isPrefixOf "ab" = false))) ∧
    (¬ ((("/" : String) ≠ "" ∧ ("/" : String) ≠ "/") ∨
        (("ab" : String) ≠ "" ∧ ("a" : String).isPrefixOf "ab" = false)) →
      listObjectsValidateArgs "a" "ab" "/" 0 = .errNone)) :=
  ⟨by decide, C1_listObjectsValidateArgs_notImplemented_iff "a" "ab" "/" 0 (by decide)⟩

/-- C2 counterexample: a negative `maxKeys` IS rejected as an error by the
ListObjects argument validation — `listObjectsValidateArgs` returns
`ErrInvalidMaxKeys` for `maxKeys = -1`, so the request does not proceed. -/
theorem C2_counterexample :
    listObjectsValidateArgs "" "" "" (-1) = .errInvalidMaxKeys := rfl

/-- C2 amended: the object layer's `ListObjects` clamps a negative `maxKeys`
to the listing limit 10000 and proceeds (modelled from the spec; exercised by
the repository test with `maxKeys = -1`), but the HTTP-layer argument
validation `listObjectsValidateArgs` rejects a negative `maxKeys` with
`ErrInvalidMaxKeys` before the object layer is reached. -/
theorem C2_amended (maxKeys : Int) (h : maxKeys < 0) :
    normalizeListObjectsMaxKeys maxKeys = listObjectsLimit ∧
    (∀ pre marker delimiter,
      listObjectsValidateArgs pre marker delimiter maxKeys = .errInvalidMaxKeys) := by
  constructor
  · unfold normalizeListObjectsMaxKeys
    have : (maxKeys < 0 || maxKeys > listObjectsLimit) = true := by
      simp only [Bool.or_eq_true, decide_eq_true_eq]
      exact Or.inl h
    rw [if_pos this]
  · intro pre marker delimiter
    unfold listObjectsValidateArgs
    rw [if_pos h]

/-- Witness for C2's amended statement at `maxKeys = -1`. -/
theorem C2_amended_witness :
    (-1 : Int) < 0 ∧
    (normalizeListObjectsMaxKeys (-1) = listObjectsLimit ∧
      (∀ pre marker delimiter,
        listObjectsValidateArgs pre marker delimiter (-1) = .errInvalidMaxKeys)) :=
  ⟨by decide, C2_amended (-1) (by decide)⟩

/-- C3 counterexample: under a quorum failure `MakeBucket` does not call
`DeleteVol` only on the disks whose `MakeVol` succeeded.  In the four-disk
fixture only disk 0 succeeded in `MakeVol` (`makeVolSucceededIndices = [0]`),
yet the undo invokes `DeleteVol` on every present disk `[0, 1, 2, 3]`. -/
theorem C3_counterexample :
    xlC3fix.MakeBucket "bucket1" =
      (.error (.insufficientWriteQuorum "bucket1"),
        ⟨[("bucket1", "")], [0, 1, 2, 3], [0, 1, 2, 3]⟩) ∧
    makeVolSucceededIndices xlC3fix.storageDisks = [0] :=
  ⟨rfl, rfl⟩

/-- C3 amended: for every valid, not-yet-existing bucket name and every
pattern of per-disk `MakeVol` outcomes, if fewer than `writeQuorum` disks
succeed, `MakeBucket` undoes the creation by calling `DeleteVol` on every
present (non-nil) disk — a superset of the disks whose `MakeVol` succeeded —
and fails with the WriteQuorum error. -/
theorem C3_amended (xl : xlObjects) (bucket : String)
    (hvalid : IsValidBucketName bucket = true)
    (hnex : xl.isBucketExist bucket = false)
    (hq : isDiskQuorum (makeVolErrs xl.storageDisks) xl.writeQuorum = false) :
    xl.MakeBucket bucket =
      (.error (.insufficientWriteQuorum bucket),
        ⟨[(bucket, "")], presentDiskIndices xl.storageDisks,
          presentDiskIndices xl.storageDisks⟩) := by
  unfold xlObjects.MakeBucket
  simp [hvalid, hnex, hq, toObjectErr]

/-- Witness for C3's amended statement on the four-disk fixture. -/
theorem C3_amended_witness :
    IsValidBucketName "bucket1" = true ∧
    xlC3fix.isBucketExist "bucket1" = false ∧
    isDiskQuorum (makeVolErrs xlC3fix.storageDisks) xlC3fix.writeQuorum = false ∧
    xlC3fix.MakeBucket "bucket1" =
      (.error (.insufficientWriteQuorum "bucket1"),
        ⟨[("bucket1", "")], presentDiskIndices xlC3fix.storageDisks,
          presentDiskIndices xlC3fix.storageDisks⟩) :=
  ⟨rfl, rfl, rfl, C3_amended xlC3fix "bucket1" rfl rfl rfl⟩

/-- C4 counterexample: `DeleteBucket`'s quorum is not counted over `DeleteVol`
successes alone.  In the four-disk fixture `writeQuorum = 3` disks succeed in
`DeleteVol` (indices `[0, 1, 2]`), so the claim requires the
non-WriteQuorum branch, but disk 2's multipart-cleanup failure is counted
into the error slots and `DeleteBucket` returns the WriteQuorum error and
runs the `MakeVol` undo on every present disk. -/
theorem C4_counterexample :
    deleteVolSucceededIndices xlC4fix.storageDisks = [0, 1, 2] ∧
    xlC4fix.writeQuorum = 3 ∧
    xlC4fix.DeleteBucket "bucket1" =
      (.error (.insufficientWriteQuorum "bucket1"),
        ⟨[("bucket1", "")], [0, 1, 2, 3], [0, 1, 2, 3]⟩) :=
  ⟨rfl, rfl, rfl⟩

/-- C4 amended: for every existing bucket, `DeleteBucket` applies the same
quorum logic as `MakeBucket` over the per-disk error slots in which a disk
counts as successful only when both its `DeleteVol` and the subsequent
multipart-meta cleanup succeed: on quorum failure it reverts by calling
`MakeVol` on every present disk (`undoDeleteBucket`) and returns the
WriteQuorum error; otherwise the modal non-ignorable error among the
{FaultyDisk, DiskNotFound, DiskAccessDenied}-filtered results, if any, is
surfaced. -/
theorem C4_amended (xl : xlObjects) (bucket : String)
    (hvalid : IsValidBucketName bucket = true)
    (hex : xl.isBucketExist bucket = true) :
    (isDiskQuorum (deleteVolCombinedErrs xl.storageDisks) xl.writeQuorum = false →
      xl.DeleteBucket bucket =
        (.error (.insufficientWriteQuorum bucket),
          ⟨[(bucket, "")], presentDiskIndices xl.storageDisks,
            presentDiskIndices xl.storageDisks⟩)) ∧
    (isDiskQuorum (deleteVolCombinedErrs xl.storageDisks) xl.writeQuorum = true →
      xl.DeleteBucket bucket =
        match reduceErrs (deleteVolCombinedErrs xl.storageDisks)
            [.faultyDisk, .diskNotFound, .diskAccessDenied] with
        | some e =>
          (.error (toObjectErr e bucket),
            ⟨[(bucket, "")], [], presentDiskIndices xl.storageDisks⟩)
        | none =>
          (.ok (), ⟨[(bucket, "")], [], presentDiskIndices xl.storageDisks⟩)) := by
  constructor
  · intro hq
    unfold xlObjects.DeleteBucket
    simp [hvalid, hex, hq, toObjectErr]
  · intro hq
    unfold xlObjects.DeleteBucket
    cases hr : reduceErrs (deleteVolCombinedErrs xl.storageDisks)
        [.faultyDisk, .diskNotFound, .diskAccessDenied] with
    | none => simp [hvalid, hex, hq, hr]
    | some e => simp [hvalid, hex, hq, hr]

/-- Witness for C4's amended statement on the four-disk fixture. -/
theorem C4_amended_witness :
    IsValidBucketName "bucket1" = true ∧
    xlC4fix.isBucketExist "bucket1" = true ∧
    ((isDiskQuorum (deleteVolCombinedErrs xlC4fix.storageDisks) xlC4fix.writeQuorum = false →
      xlC4fix.DeleteBucket "bucket1" =
        (.error (.insufficientWriteQuorum "bucket1"),
          ⟨[("bucket1", "")], presentDiskIndices xlC4fix.storageDisks,
            presentDiskIndices xlC4fix.storageDisks⟩)) ∧
    (isDiskQuorum (deleteVolCombinedErrs xlC4fix.storageDisks) xlC4fix.writeQuorum = true →
      xlC4fix.DeleteBucket "bucket1" =
        match reduceErrs (deleteVolCombinedErrs xlC4fix.storageDisks)
            [.faultyDisk, .diskNotFound, .diskAccessDenied] with
        | some e =>
          (.error (toObjectErr e "bucket1"),
            ⟨[("bucket1", "")], [], presentDiskIndices xlC4fix.storageDisks⟩)
        | none =>
          (.ok (), ⟨[("bucket1", "")], [], presentDiskIndices xlC4fix.storageDisks⟩))) :=
  ⟨rfl, rfl, C4_amended xlC4fix "bucket1" rfl rfl⟩

/-- Helper: a successful, non-empty `listBuckets` loop run decomposes the
disk sequence into a run of skipped disks followed by the responsive disk
whose filtered `ListVols` reply is the result. -/
theorem listBucketsAux_ok_decomp (ds : List (Option DiskSpec)) (err0 : Option StorageErr)
    (l : List BucketInfo) (h : listBucketsAux ds err0 = (l, none)) (hne : l ≠ []) :
    ∃ pre d post vols, ds = pre ++ some d :: post ∧
      (∀ x ∈ pre, listBucketsSkippedDisk x = true) ∧
      d.listVolsRes = .ok vols ∧ l = filterBucketVols vols := by
  induction ds generalizing err0 with
  | nil =>
    simp only [listBucketsAux, Prod.mk.injEq] at h
    exact absurd h.1.symm hne
  | cons hd rest ih =>
    cases hd with
    | none =>
      simp only [listBucketsAux] at h
      obtain ⟨pre, d, post, vols, hds, hskip, hres, hl⟩ := ih err0 h
      refine ⟨none :: pre, d, post, vols, by rw [hds]; rfl, ?_, hres, hl⟩
      intro x hx
      rcases List.mem_cons.mp hx with hx | hx
      · subst hx; rfl
      · exact hskip x hx
    | some d =>
      simp only [listBucketsAux] at h
      cases hres : d.listVolsRes with
      | ok vols =>
        simp only [hres] at h
        by_cases hemp : (filterBucketVols vols).isEmpty = true
        · rw [if_pos hemp] at h
          obtain ⟨pre, d', post, vols', hds, hskip, hres', hl⟩ := ih none h
          refine ⟨some d :: pre, d', post, vols', by rw [hds]; rfl, ?_, hres', hl⟩
          intro x hx
          rcases List.mem_cons.mp hx with hx | hx
          · subst hx
            simp only [listBucketsSkippedDisk, hres]
            exact hemp
          · exact hskip x hx
        · rw [if_neg hemp] at h
          have h1 : filterBucketVols vols = l := congrArg Prod.fst h
          exact ⟨[], d, rest, vols, rfl,
            fun x hx => absurd hx (List.not_mem_nil x), hres, h1.symm⟩
      | error e =>
        simp only [hres] at h
        by_cases hign : isErrIgnored e bucketMetadataOpIgnoredErrs = true
        · rw [if_pos hign] at h
          obtain ⟨pre, d', post, vols', hds, hskip, hres', hl⟩ := ih (some e) h
          refine ⟨some d :: pre, d', post, vols', by rw [hds]; rfl, ?_, hres', hl⟩
          intro x hx
          rcases List.mem_cons.mp hx with hx | hx
          · subst hx
            simp only [listBucketsSkippedDisk, hres]
            exact hign
          · exact hskip x hx
        · rw [if_neg hign] at h
          have h2 : (some e : Option StorageErr) = none := congrArg Prod.snd h
          exact absurd h2 (by simp)

/-- C5 counterexample: a successful `ListBuckets` result need not come from
the first responsive load-balanced disk.  In the two-disk fixture the first
load-balanced disk responds successfully, its reply filters to the empty
bucket list (it holds only the reserved meta volume), yet `ListBuckets`
returns the non-empty list delivered by the second disk. -/
theorem C5_counterexample :
    xlC5fix.ListBuckets = .ok [⟨"bucket1", 5⟩] ∧
    xlC5fix.getLoadBalancedDisks.head? = some (some diskMetaOnly) ∧
    diskMetaOnly.listVolsRes = .ok [⟨".minio", 1⟩] ∧
    filterBucketVols [⟨".minio", 1⟩] = [] :=
  ⟨rfl, rfl, rfl, rfl⟩

/-- C5 amended: every non-empty list returned by a successful `ListBuckets`
contains exactly those volumes — filtered to valid bucket names and with the
reserved meta volume excluded — of the first load-balanced disk that is
present, responds successfully, and whose filtered volume list is non-empty
(disks that are absent, fail with an ignorable error, or filter to an empty
list are skipped), sorted lexicographically by bucket name. -/
theorem C5_amended (xl : xlObjects) (l : List BucketInfo)
    (h : xl.ListBuckets = .ok l) (hne : l ≠ []) :
    List.Pairwise byBucketNameLe l ∧
    ∃ pre d post vols, xl.getLoadBalancedDisks = pre ++ some d :: post ∧
      (∀ x ∈ pre, listBucketsSkippedDisk x = true) ∧
      d.listVolsRes = .ok vols ∧ l = sortByBucketName (filterBucketVols vols) := by
  unfold xlObjects.ListBuckets at h
  rcases hlb : xl.listBuckets with ⟨bs, errOpt⟩
  rw [hlb] at h
  cases errOpt with
  | some e => exact absurd h (by simp)
  | none =>
    simp only [Except.ok.injEq] at h
    subst h
    have hbs : bs ≠ [] := by
      intro hbs
      subst hbs
      exact hne rfl
    obtain ⟨pre, d, post, vols, hds, hskip, hres, hl⟩ :=
      listBucketsAux_ok_decomp xl.getLoadBalancedDisks none bs hlb hbs
    refine ⟨List.sorted_insertionSort byBucketNameLe bs, pre, d, post, vols, hds, hskip,
      hres, by rw [hl]⟩

/-- Witness for C5's amended statement on the two-disk fixture. -/
theorem C5_amended_witness :
    xlC5fix.ListBuckets = .ok [⟨"bucket1", 5⟩] ∧
    ([(⟨"bucket1", 5⟩ : BucketInfo)] ≠ []) ∧
    (List.Pairwise byBucketNameLe [(⟨"bucket1", 5⟩ : BucketInfo)] ∧
    ∃ pre d post vols, xlC5fix.getLoadBalancedDisks = pre ++ some d :: post ∧
      (∀ x ∈ pre, listBucketsSkippedDisk x = true) ∧
      d.listVolsRes = .ok vols ∧
      [(⟨"bucket1", 5⟩ : BucketInfo)] = sortByBucketName (filterBucketVols vols)) :=
  ⟨rfl, by simp, C5_amended xlC5fix [⟨"bucket1", 5⟩] rfl (by simp)⟩

/-- C10: for every valid bucket name that the XL layer already considers
existing, `MakeBucket` returns the BucketExists error (obtained from
`errVolumeExists` through `toObjectErr`) with an empty side-effect trace: no
exclusive namespace lock is acquired and no `MakeVol` is invoked on any
storage disk. -/
theorem C10_MakeBucket_existing (xl : xlObjects) (bucket : String)
    (hvalid : IsValidBucketName bucket = true)
    (hex : xl.isBucketExist bucket = true) :
    xl.MakeBucket bucket = (.error (.bucketExists bucket), ⟨[], [], []⟩) ∧
    toObjectErr .volumeExists bucket = .bucketExists bucket := by
  unfold xlObjects.MakeBucket
  simp [hvalid, hex, toObjectErr]

/-- Witness for C10 on a one-disk fixture where `bucket1` exists. -/
theorem C10_witness :
    IsValidBucketName "bucket1" = true ∧
    xlC10fix.isBucketExist "bucket1" = true ∧
    (xlC10fix.MakeBucket "bucket1" = (.error (.bucketExists "bucket1"), ⟨[], [], []⟩) ∧
      toObjectErr .volumeExists "bucket1" = .bucketExists "bucket1") :=
  ⟨rfl, rfl, C10_MakeBucket_existing xlC10fix "bucket1" rfl rfl⟩

/-- C6: every storage RPC handler (DiskInfo, MakeVol, ListVols, StatVol,
DeleteVol, StatFile, ListDir, ReadAll, ReadFile, AppendFile, DeleteFile,
RenameFile), on a request whose token fails validation, returns the
InvalidToken error and performs no invocation of the underlying storage
operation (empty call log). -/
theorem C6_invalid_token_rejected :
    (∀ (tv : String → Bool) (s : StorageAPIModel) (args : GenericArgs),
      tv args.token = false → DiskInfoHandler tv s args = (.error .invalidToken, [])) ∧
    (∀ (tv : String → Bool) (s : StorageAPIModel) (args : GenericVolArgs),
      tv args.token = false → MakeVolHandler tv s args = (.error .invalidToken, [])) ∧
    (∀ (tv : String → Bool) (s : StorageAPIModel) (args : GenericArgs),
      tv args.token = false → ListVolsHandler tv s args = (.error .invalidToken, [])) ∧
    (∀ (tv : String → Bool) (s : StorageAPIModel) (args : GenericVolArgs),
      tv args.token = false → StatVolHandler tv s args = (.error .invalidToken, [])) ∧
    (∀ (tv : String → Bool) (s : StorageAPIModel) (args : GenericVolArgs),
      tv args.token = false → DeleteVolHandler tv s args = (.error .invalidToken, [])) ∧
    (∀ (tv : String → Bool) (s : StorageAPIModel) (args : StatFileArgs),
      tv args.token = false → StatFileHandler tv s args = (.error .invalidToken, [])) ∧
    (∀ (tv : String → Bool) (s : StorageAPIModel) (args : ListDirArgs),
      tv args.token = false → ListDirHandler tv s args = (.error .invalidToken, [])) ∧
    (∀ (tv : String → Bool) (s : StorageAPIModel) (args : ReadFileArgs),
      tv args.token = false → ReadAllHandler tv s args = (.error .invalidToken, [])) ∧
    (∀ (tv : String → Bool) (s : StorageAPIModel) (args : ReadFileArgs),
      tv args.token = false → ReadFileHandler tv s args = (.error .invalidToken, [])) ∧
    (∀ (tv : String → Bool) (s : StorageAPIModel) (args : AppendFileArgs),
      tv args.token = false → AppendFileHandler tv s args = (.error .invalidToken, [])) ∧
    (∀ (tv : String → Bool) (s : StorageAPIModel) (args : DeleteFileArgs),
      tv args.token = false → DeleteFileHandler tv s args = (.error .invalidToken, [])) ∧
    (∀ (tv : String → Bool) (s : StorageAPIModel) (args : RenameFileArgs),
      tv args.token = false → RenameFileHandler tv s args = (.error .invalidToken, [])) := by
  refine ⟨?_, ?_, ?_, ?_, ?_, ?_, ?_, ?_, ?_, ?_, ?_, ?_⟩ <;>
    intro tv s args h
  · simp [DiskInfoHandler, h]
  · simp [MakeVolHandler, h]
  · simp [ListVolsHandler, h]
  · simp [StatVolHandler, h]
  · simp [DeleteVolHandler, h]
  · simp [StatFileHandler, h]
  · simp [ListDirHandler, h]
  · simp [ReadAllHandler, h]
  · simp [ReadFileHandler, readFileHandlerBody, h]
  · simp [AppendFileHandler, h]
  · simp [DeleteFileHandler, h]
  · simp [RenameFileHandler, h]

/-- Witness for C6: with the always-false token validator, every one of the
twelve handlers rejects a concrete request with InvalidToken and an empty
storage call log. -/
theorem C6_witness :
    ((fun _ : String => false) "t" = false) ∧
    DiskInfoHandler (fun _ => false) storageFix ⟨"t"⟩ = (.error .invalidToken, []) ∧
    MakeVolHandler (fun _ => false) storageFix ⟨"t", "v"⟩ = (.error .invalidToken, []) ∧
    ListVolsHandler (fun _ => false) storageFix ⟨"t"⟩ = (.error .invalidToken, []) ∧
    StatVolHandler (fun _ => false) storageFix ⟨"t", "v"⟩ = (.error .invalidToken, []) ∧
    DeleteVolHandler (fun _ => false) storageFix ⟨"t", "v"⟩ = (.error .invalidToken, []) ∧
    StatFileHandler (fun _ => false) storageFix ⟨"t", "v", "p"⟩ = (.error .invalidToken, []) ∧
    ListDirHandler (fun _ => false) storageFix ⟨"t", "v", "p"⟩ = (.error .invalidToken, []) ∧
    ReadAllHandler (fun _ => false) storageFix ⟨"t", "v", "p", 0, 4⟩ =
      (.error .invalidToken, []) ∧
    ReadFileHandler (fun _ => false) storageFix ⟨"t", "v", "p", 0, 4⟩ =
      (.error .invalidToken, []) ∧
    AppendFileHandler (fun _ => false) storageFix ⟨"t", "v", "p", [1]⟩ =
      (.error .invalidToken, []) ∧
    DeleteFileHandler (fun _ => false) storageFix ⟨"t", "v", "p"⟩ =
      (.error .invalidToken, []) ∧
    RenameFileHandler (fun _ => false) storageFix ⟨"t", "sv", "sp", "dv", "dp"⟩ =
      (.error .invalidToken, []) :=
  ⟨rfl,
    C6_invalid_token_rejected.1 _ storageFix ⟨"t"⟩ rfl,
    C6_invalid_token_rejected.2.1 _ storageFix ⟨"t", "v"⟩ rfl,
    C6_invalid_token_rejected.2.2.1 _ storageFix ⟨"t"⟩ rfl,
    C6_invalid_token_rejected.2.2.2.1 _ storageFix ⟨"t", "v"⟩ rfl,
    C6_invalid_token_rejected.2.2.2.2.1 _ storageFix ⟨"t", "v"⟩ rfl,
    C6_invalid_token_rejected.2.2.2.2.2.1 _ storageFix ⟨"t", "v", "p"⟩ rfl,
    C6_invalid_token_rejected.2.2.2.2.2.2.1 _ storageFix ⟨"t", "v", "p"⟩ rfl,
    C6_invalid_token_rejected.2.2.2.2.2.2.2.1 _ storageFix ⟨"t", "v", "p", 0, 4⟩ rfl,
    C6_invalid_token_rejected.2.2.2.2.2.2.2.2.1 _ storageFix ⟨"t", "v", "p", 0, 4⟩ rfl,
    C6_invalid_token_rejected.2.2.2.2.2.2.2.2.2.1 _ storageFix ⟨"t", "v", "p", [1]⟩ rfl,
    C6_invalid_token_rejected.2.2.2.2.2.2.2.2.2.2.1 _ storageFix ⟨"t", "v", "p"⟩ rfl,
    C6_invalid_token_rejected.2.2.2.2.2.2.2.2.2.2.2 _ storageFix
      ⟨"t", "sv", "sp", "dv", "dp"⟩ rfl⟩

/-- C7: for every `ReadFile` RPC request with a valid token, (a) the reply
buffer handed to the storage's `ReadFile` is allocated with exactly the
client-supplied size; (b) a panic during handling (negative allocation size,
or a panic of the storage call) is recovered and converted into the graceful
error `bytes.ErrTooLarge`; and (c) a short read (storage returns the read
bytes together with `io.ErrUnexpectedEOF`) replies with the consumed prefix
of the allocated buffer, of length equal to the bytes actually read, and a
nil error. -/
theorem C7_ReadFileHandler_props (tv : String → Bool) (s : StorageAPIModel)
    (args : ReadFileArgs) (htok : tv args.token = true) :
    (0 ≤ args.size →
      (ReadFileHandler tv s args).2 =
        [.readFile args.vol args.path args.offset args.size.toNat]) ∧
    ((args.size < 0 ∨
        s.readFileRes args.vol args.path args.offset args.size.toNat = .panics) →
      (ReadFileHandler tv s args).1 = .error .tooLarge) ∧
    (∀ data : List UInt8, 0 ≤ args.size → data.length ≤ args.size.toNat →
      s.readFileRes args.vol args.path args.offset args.size.toNat =
        .res data (some .unexpectedEOF) →
      (ReadFileHandler tv s args).1 = .ok data ∧
        data = (data ++ List.replicate (args.size.toNat - data.length) (0 : UInt8)).take
          data.length) := by
  have hsnd : (ReadFileHandler tv s args).2 = (readFileHandlerBody tv s args).2 := by
    unfold ReadFileHandler
    rcases readFileHandlerBody tv s args with ⟨b, calls⟩
    cases b with
    | panic => rfl
    | ret reply err => cases err <;> rfl
  refine ⟨?_, ?_, ?_⟩
  · intro hsz
    have hns : ¬ args.size < 0 := by omega
    rw [hsnd]
    unfold readFileHandlerBody
    simp only [htok, Bool.not_true, Bool.false_eq_true, if_false, hns, if_true]
    cases hres : s.readFileRes args.vol args.path args.offset args.size.toNat with
    | panics => rfl
    | res data err => rfl
  · intro hp
    unfold ReadFileHandler readFileHandlerBody
    by_cases hneg : args.size < 0
    · simp [htok, hneg]
    · rcases hp with hp | hpan
      · exact absurd hp hneg
      · simp [htok, hneg, hpan]
  · intro data hsz hlen hres
    have hns : ¬ args.size < 0 := by omega
    have htake : data.take args.size.toNat = data := List.take_of_length_le hlen
    unfold ReadFileHandler readFileHandlerBody
    simp only [htok, Bool.not_true, Bool.false_eq_true, if_false, hns, if_true, hres]
    rw [htake]
    constructor
    · simp [List.take_left, List.drop_replicate]
    · exact (List.take_left data _).symm

/-- Witness for C7 on the fixture storage whose `ReadFile` short-reads two
bytes into a four-byte buffer. -/
theorem C7_witness :
    ((fun _ : String => true) "t" = true) ∧
    ((0 : Int) ≤ (4 : Int) →
      (ReadFileHandler (fun _ => true) storageFix ⟨"t", "v", "p", 0, 4⟩).2 =
        [.readFile "v" "p" 0 (Int.toNat 4)]) ∧
    (((4 : Int) < 0 ∨
        storageFix.readFileRes "v" "p" 0 (Int.toNat 4) = .panics) →
      (ReadFileHandler (fun _ => true) storageFix ⟨"t", "v", "p", 0, 4⟩).1 =
        .error .tooLarge) ∧
    (∀ data : List UInt8, (0 : Int) ≤ 4 → data.length ≤ Int.toNat 4 →
      storageFix.readFileRes "v" "p" 0 (Int.toNat 4) =
        .res data (some .unexpectedEOF) →
      (ReadFileHandler (fun _ => true) storageFix ⟨"t", "v", "p", 0, 4⟩).1 = .ok data ∧
        data = (data ++ List.replicate (Int.toNat 4 - data.length) (0 : UInt8)).take
          data.length) :=
  ⟨rfl, (C7_ReadFileHandler_props (fun _ => true) storageFix ⟨"t", "v", "p", 0, 4⟩ rfl).1,
    (C7_ReadFileHandler_props (fun _ => true) storageFix ⟨"t", "v", "p", 0, 4⟩ rfl).2.1,
    (C7_ReadFileHandler_props (fun _ => true) storageFix ⟨"t", "v", "p", 0, 4⟩ rfl).2.2⟩

/-- Helper: a byte list without zero bytes is a prefix of `xs` padded with
trailing zero bytes exactly when it is a prefix of `xs` itself. -/
theorem isPrefixOf_append_replicate_zero :
    ∀ (m xs : List UInt8), (∀ b ∈ m, b ≠ 0) → ∀ k : Nat,
      m.isPrefixOf (xs ++ List.replicate k 0) = m.isPrefixOf xs := by
  intro m
  induction m with
  | nil => intro xs _ k; simp
  | cons b bs ih =>
    intro xs hm k
    have hb : b ≠ 0 := hm b (List.mem_cons_self b bs)
    have hbs : ∀ x ∈ bs, x ≠ 0 := fun x hx => hm x (List.mem_cons_of_mem b hx)
    cases xs with
    | nil =>
      simp only [List.nil_append]
      cases k with
      | zero => simp
      | succ k =>
        simp only [List.replicate_succ, List.isPrefixOf]
        have hb2 : (b == 0) = false := by simpa using hb
        simp [hb2, List.isPrefixOf]
    | cons x xs =>
      simp only [List.cons_append, List.isPrefixOf, List.append_eq]
      rw [ih xs hbs k]

/-- Helper: padding with trailing zero bytes does not change which method
tokens are prefixes, provided no token contains a zero byte. -/
theorem any_isPrefixOf_append_zeros (ms : List String)
    (hms : ∀ m ∈ ms, ∀ b ∈ strBytes m, b ≠ 0) (xs : List UInt8) (k : Nat) :
    (ms.any fun m => (strBytes m).isPrefixOf (xs ++ List.replicate k 0)) =
      (ms.any fun m => (strBytes m).isPrefixOf xs) := by
  induction ms with
  | nil => rfl
  | cons m ms ih =>
    simp only [List.any_cons]
    rw [isPrefixOf_append_replicate_zero (strBytes m) xs
        (hms m (List.mem_cons_self m ms)) k,
      ih (fun m2 hm2 => hms m2 (List.mem_cons_of_mem m hm2))]

/-- Helper: two prefixes of the same list are comparable. -/
theorem isPrefixOf_mutual :
    ∀ (a b xs : List UInt8), a.isPrefixOf xs = true → b.isPrefixOf xs = true →
      a.isPrefixOf b = true ∨ b.isPrefixOf a = true := by
  intro a
  induction a with
  | nil => intro b xs _ _; left; simp
  | cons x as ih =>
    intro b xs ha hb
    cases b with
    | nil => right; simp
    | cons y bs =>
      cases xs with
      | nil => exact absurd ha (by simp [List.isPrefixOf])
      | cons z zs =>
        simp only [List.isPrefixOf, Bool.and_eq_true] at ha hb
        obtain ⟨hx, ha2⟩ := ha
        obtain ⟨hy, hb2⟩ := hb
        have hxz : x = z := by simpa using hx
        have hyz : y = z := by simpa using hy
        have hxy : (x == y) = true := by simp [hxz, hyz]
        have hyx : (y == x) = true := by simp [hxz, hyz]
        rcases ih bs zs ha2 hb2 with h | h
        · left
          simp only [List.isPrefixOf, Bool.and_eq_true]
          exact ⟨hxy, h⟩
        · right
          simp only [List.isPrefixOf, Bool.and_eq_true]
          exact ⟨hyx, h⟩

/-- Helper: a byte stream beginning with the HTTP/2 preface `"PRI"` begins
with no HTTP/1 method token. -/
theorem pri_disjoint_http1 (xs : List UInt8)
    (h : (strBytes "PRI").isPrefixOf xs = true) :
    (defaultHTTP1Methods.any fun m => (strBytes m).isPrefixOf xs) = false := by
  by_contra hany
  rw [Bool.not_eq_false] at hany
  obtain ⟨m, hmem, hm⟩ := List.any_eq_true.mp hany
  simp only [defaultHTTP1Methods, List.mem_cons, List.not_mem_nil, or_false] at hmem
  rcases hmem with rfl | rfl | rfl | rfl | rfl | rfl | rfl | rfl <;>
    rcases isPrefixOf_mutual _ _ _ h hm with hc | hc <;> exact absurd hc (by decide)

/-- Helper: the underlying connection delivers at most `bufLen` bytes per
read. -/
theorem NetConn.read_length_le (c : NetConn) (bufLen : Nat) :
    ((c.read bufLen).1.1).length ≤ bufLen := by
  unfold NetConn.read
  by_cases hemp : c.data.isEmpty
  · simp [hemp]
  · simp only [hemp, Bool.false_eq_true, if_false, List.length_take]
    omega

/-- Helper: the result of a Go read of `bytes` into the 8-byte zero buffer
is the bytes followed by the remaining zero padding. -/
theorem writeInto_replicate_zero (bytes : List UInt8) (h : bytes.length ≤ 8) :
    writeInto (List.replicate 8 0) bytes =
      bytes ++ List.replicate (8 - bytes.length) 0 := by
  unfold writeInto
  simp only [List.length_replicate, List.take_of_length_le h, List.drop_replicate]

/-- Helper: the protocol string computed by `PeekProtocol` as a function of
the first read's outcome. -/
theorem PeekProtocol_fst (nc : NetConn) :
    (NewMuxConn nc).PeekProtocol.1 =
      (if ((nc.read 8).1.1).length == 0 ||
          (!((nc.read 8).1.2 == none) && !((nc.read 8).1.2 == some .eof)) then ""
       else peekClassify (writeInto (List.replicate 8 0) ((nc.read 8).1.1))) := by
  have hconn : (NewMuxConn nc).conn = nc := rfl
  have hbuf : (NewMuxConn nc).dataBuf.buffer = List.replicate 8 0 := rfl
  rcases hread : nc.read 8 with ⟨⟨bytes, err⟩, conn2⟩
  simp only [MuxConn.PeekProtocol, hconn, hbuf, List.length_replicate, hread]
  by_cases hcond : (bytes.length == 0 || (!(err == none) && !(err == some ReadErr.eof))) = true
  · rw [if_pos hcond, if_pos hcond]
  · rw [if_neg hcond, if_neg hcond]

/-- C9: for every connection whose first read delivers at least one byte
with a nil or EOF error, `PeekProtocol` classifies the connection as "http"
exactly when the peeked bytes begin with one of the HTTP/1 method tokens, as
"http2" exactly when they begin with "PRI", and as "tls" in every other
case. -/
theorem C9_PeekProtocol_classification (nc : NetConn)
    (hne : ((nc.read 8).1).1 ≠ [])
    (herr : ((nc.read 8).1).2 = none ∨ ((nc.read 8).1).2 = some .eof) :
    ((NewMuxConn nc).PeekProtocol.1 = "http" ↔
      (defaultHTTP1Methods.any fun m => (strBytes m).isPrefixOf ((nc.read 8).1).1) = true) ∧
    ((NewMuxConn nc).PeekProtocol.1 = "http2" ↔
      (strBytes "PRI").isPrefixOf ((nc.read 8).1).1 = true) ∧
    ((defaultHTTP1Methods.any fun m => (strBytes m).isPrefixOf ((nc.read 8).1).1) = false →
      (strBytes "PRI").isPrefixOf ((nc.read 8).1).1 = false →
      (NewMuxConn nc).PeekProtocol.1 = "tls") := by
  have hlen : ((nc.read 8).1.1).length ≤ 8 := NetConn.read_length_le nc 8
  have h0 : (((nc.read 8).1.1).length == 0) = false := by
    simp only [beq_eq_false_iff_ne, ne_eq, List.length_eq_zero]
    exact hne
  have herr2 : (!((nc.read 8).1.2 == none) && !((nc.read 8).1.2 == some .eof)) = false := by
    rcases herr with h | h <;> rw [h] <;> rfl
  rw [PeekProtocol_fst nc, h0, herr2]
  simp only [Bool.or_self, Bool.false_eq_true, if_false]
  rw [writeInto_replicate_zero _ hlen]
  unfold peekClassify
  rw [any_isPrefixOf_append_zeros defaultHTTP1Methods (by decide) _ _,
    any_isPrefixOf_append_zeros defaultHTTP2Methods (by decide) _ _]
  have hany2 : (defaultHTTP2Methods.any fun m => (strBytes m).isPrefixOf ((nc.read 8).1).1) =
      (strBytes "PRI").isPrefixOf ((nc.read 8).1).1 := by
    simp [defaultHTTP2Methods]
  rw [hany2]
  cases ha1 : (defaultHTTP1Methods.any fun m => (strBytes m).isPrefixOf ((nc.read 8).1).1) with
  | true =>
    cases ha2 : (strBytes "PRI").isPrefixOf ((nc.read 8).1).1 with
    | true => exact absurd (pri_disjoint_http1 _ ha2) (by rw [ha1]; simp)
    | false =>
      refine ⟨by simp, ?_, ?_⟩
      · simp only [if_true]
        constructor
        · intro h; exact absurd h (by decide)
        · intro h; exact absurd h (by simp)
      · intro h; exact absurd h (by simp)
  | false =>
    cases ha2 : (strBytes "PRI").isPrefixOf ((nc.read 8).1).1 with
    | true =>
      refine ⟨?_, by simp, ?_⟩
      · simp only [Bool.false_eq_true, if_false, if_true]
        constructor
        · intro h; exact absurd h (by decide)
        · intro h; exact absurd h (by simp)
      · intro _ h; exact absurd h (by simp)
    | false =>
      refine ⟨?_, ?_, ?_⟩
      · simp only [Bool.false_eq_true, if_false]
        constructor
        · intro h; exact absurd h (by decide)
        · intro h; exact absurd h (by simp)
      · simp only [Bool.false_eq_true, if_false]
        constructor
        · intro h; exact absurd h (by decide)
        · intro h; exact absurd h (by simp)
      · intro _ _
        simp

/-- Witness for C9: the connection delivering `"GET /index"` is classified
as "http", whose peeked bytes begin with the token `"GET"`. -/
theorem C9_witness :
    ((connFullPeek.read 8).1).1 ≠ [] ∧
    (((connFullPeek.read 8).1).2 = none ∨ ((connFullPeek.read 8).1).2 = some .eof) ∧
    (((NewMuxConn connFullPeek).PeekProtocol.1 = "http" ↔
      (defaultHTTP1Methods.any fun m =>
        (strBytes m).isPrefixOf ((connFullPeek.read 8).1).1) = true) ∧
    ((NewMuxConn connFullPeek).PeekProtocol.1 = "http2" ↔
      (strBytes "PRI").isPrefixOf ((connFullPeek.read 8).1).1 = true) ∧
    ((defaultHTTP1Methods.any fun m =>
        (strBytes m).isPrefixOf ((connFullPeek.read 8).1).1) = false →
      (strBytes "PRI").isPrefixOf ((connFullPeek.read 8).1).1 = false →
      (NewMuxConn connFullPeek).PeekProtocol.1 = "tls")) :=
  ⟨by decide, Or.inl (by decide),
    C9_PeekProtocol_classification connFullPeek (by decide) (Or.inl (by decide))⟩

/-- C8 (code bug): after a short peek read, the byte stream produced by
subsequent `MuxConn.Read` calls is not identical to the byte stream of the
original connection.  On a connection carrying `"GET /index"` whose first
read delivers only the three bytes `"GET"`, `PeekProtocol` classifies the
connection as "http", but the replay delivers the whole 8-byte peek buffer —
the three peeked bytes followed by five zero bytes that were never received —
before continuing from the socket. -/
theorem C8_short_peek_corrupts_replay :
    ((NewMuxConn connShortPeek).PeekProtocol).1 = "http" ∧
    connShortPeek.data = strBytes "GET /index" ∧
    muxReads ((NewMuxConn connShortPeek).PeekProtocol).2 [8, 8, 8] =
      strBytes "GET" ++ List.replicate 5 0 ++ strBytes " /index" ∧
    muxReads ((NewMuxConn connShortPeek).PeekProtocol).2 [8, 8, 8] ≠
      strBytes "GET /index" :=
  ⟨rfl, rfl, rfl, by decide⟩

end Minio
